import Mathlib

/-!
Shallow embedding of the SDR backend's scoring/qualification/evaluation core
(`app/services/lead_service.py`, `app/services/grok_service.py`,
`app/services/evaluation_service.py`) and proofs of the specification claims.

Numbers are modelled as `ℚ` (Python floats), nullable columns as `Option`,
and Python truthiness tests (`if x:`) are made explicit: a number is truthy
iff it is nonzero, a string iff it is nonempty, `None` and empty collections
are falsy.
-/

set_option maxRecDepth 16384

namespace SDR

/-- The `PipelineStage` enum from `app/models.py`. -/
inductive PipelineStage where
  | new
  | qualified
  | contacted
  | meeting_scheduled
  | proposal_sent
  | negotiation
  | closed_won
  | closed_lost
deriving DecidableEq, Repr

/-- The `Lead` row (`app/models.py`): the fields read or written by the
scoring engine.  `lead_score` is a float column (default 0.0), the four
company-context fields after `company_name` are nullable. -/
structure Lead where
  id : Nat
  first_name : String
  last_name : String
  email : String
  company_name : String
  job_title : Option String
  industry : Option String
  company_size : Option String
  company_website : Option String
  lead_score : ℚ
  pipeline_stage : PipelineStage
deriving DecidableEq, Repr

/-- A structured qualification result (`Dict[str, Any]` returned by
`GrokService.qualify_lead`): the two fields `LeadService.qualify_lead`
reads.  `none` models an absent key. -/
structure Qualification where
  qualification_score : Option ℚ
  recommended_stage : Option String
deriving DecidableEq, Repr

/-- The `stage_mapping` table from `LeadService.qualify_lead` (lines 134-138):
the only recognized stage names. -/
def stage_mapping : String → Option PipelineStage
  | "new" => some PipelineStage.new
  | "qualified" => some PipelineStage.qualified
  | "contacted" => some PipelineStage.contacted
  | _ => none

/-- Python truthiness of `dict.get(key)` for a string-valued key:
truthy iff present and nonempty. -/
def strTruthy : Option String → Bool
  | none => false
  | some s => s ≠ ""

/-- Python truthiness of `dict.get(key)` for a number-valued key:
truthy iff present and nonzero. -/
def numTruthy : Option ℚ → Bool
  | none => false
  | some q => q ≠ 0

/-- The update step of `LeadService.qualify_lead` (lines 132-148): given the
lead and the structured qualification, overwrite `pipeline_stage` when
`qualification.get("recommended_stage")` is truthy and maps to a recognized
stage, and overwrite `lead_score` with `qualification["qualification_score"] / 10.0`
when `qualification.get("qualification_score")` is truthy. -/
def applyQualification (lead : Lead) (q : Qualification) : Lead :=
  let lead1 :=
    if strTruthy q.recommended_stage then
      match stage_mapping (q.recommended_stage.getD "") with
      | some new_stage => { lead with pipeline_stage := new_stage }
      | none => lead
    else lead
  if numTruthy q.qualification_score then
    { lead1 with lead_score := q.qualification_score.getD 0 / 10 }
  else lead1

/-- One `ScoringCriteria` row (`app/models.py`): `is_active` is an integer
column used as a boolean (active = 1). -/
structure ScoringCriteria where
  id : Nat
  name : String
  description : String
  weight : ℚ
  criteria_rules : String
  is_active : Nat
deriving DecidableEq, Repr

/-- A structured scoring result (`Dict[str, Any]` returned by
`GrokService.score_lead`).  `none` models an absent key. -/
structure ScoringResult where
  total_score : Option ℚ
  criteria_scores : Option (List (String × ℚ))
  recommendations : Option (List String)
deriving DecidableEq, Repr

/-- The value returned by `LeadService.score_lead` (lines 243-248). -/
structure ScoreOutput where
  lead_id : Nat
  total_score : ℚ
  criteria_scores : List (String × ℚ)
  recommendations : List String
deriving DecidableEq, Repr

/-- The lookup `self.db.query(Lead).filter(Lead.id == lead_id).first()`. -/
def findLead (leads : List Lead) (lead_id : Nat) : Option Lead :=
  (leads.filter (fun l => l.id = lead_id)).head?

/-- Committing a mutated lead row: replace the row with the given id. -/
def storeLead (leads : List Lead) (lead_id : Nat) (f : Lead → Lead) : List Lead :=
  leads.map (fun l => if l.id = lead_id then f l else l)

/-- The criteria query of `LeadService.score_lead` (lines 204-209): the
active rows, restricted to `criteria_ids` when that argument is truthy
(present and nonempty). -/
def effectiveCriteria (allCriteria : List ScoringCriteria)
    (criteria_ids : Option (List Nat)) : List ScoringCriteria :=
  let query := allCriteria.filter (fun c => c.is_active = 1)
  match criteria_ids with
  | some ids => if ids.isEmpty then query else query.filter (fun c => ids.contains c.id)
  | none => query

/-- Model of `LeadService.score_lead` (lines 194-248), with the database modelled as
the list of lead rows and the external completion+interpretation step given
as the structured `scoring_result`.  Returns the database state after the
call together with either the response record or the raised error message. -/
def score_lead (leads : List Lead) (allCriteria : List ScoringCriteria)
    (lead_id : Nat) (criteria_ids : Option (List Nat))
    (scoring_result : ScoringResult) :
    List Lead × Except String ScoreOutput :=
  match findLead leads lead_id with
  | none => (leads, Except.error "Lead not found")
  | some _ =>
    let criteria := effectiveCriteria allCriteria criteria_ids
    if criteria.isEmpty then (leads, Except.error "No active scoring criteria found")
    else
      let leads1 :=
        if numTruthy scoring_result.total_score then
          storeLead leads lead_id
            (fun l => { l with lead_score := scoring_result.total_score.getD 0 })
        else leads
      (leads1, Except.ok
        { lead_id := lead_id
          total_score := scoring_result.total_score.getD 0
          criteria_scores := scoring_result.criteria_scores.getD []
          recommendations := scoring_result.recommendations.getD [] })

/-- One entry of the `criteria_data` list handed to `GrokService.score_lead`
(`LeadService.score_lead` lines 224-232). -/
structure CriteriaData where
  name : String
  description : String
  weight : ℚ
  rules : String
deriving DecidableEq, Repr

/-- Insertion into a Python `dict`, modelled as an association list ordered
by first insertion: an existing key has its value replaced in place, a new
key is appended. -/
def dictInsert (m : List (String × ℚ)) (k : String) (v : ℚ) : List (String × ℚ) :=
  if m.any (fun p => p.1 = k) then
    m.map (fun p => if p.1 = k then (k, v) else p)
  else m ++ [(k, v)]

/-- The dict comprehension `{criteria['name']: 5.0 for criteria in scoring_criteria}`
specialised to a constant value. -/
def dictOfConst (keys : List String) (v : ℚ) : List (String × ℚ) :=
  keys.foldl (fun m k => dictInsert m k v) []

/-- Model of `GrokService._parse_scoring_text` (lines 258-272): the fixed fallback
payload for a scoring request whose completion text is not valid JSON.
`sum(criteria_scores.values()) / len(criteria_scores)` when the dict is
truthy (nonempty), else `0.0`. -/
def parse_scoring_text (text : String) (scoring_criteria : List CriteriaData) :
    ScoringResult :=
  let criteria_scores := dictOfConst (scoring_criteria.map (fun c => c.name)) 5
  let total_score : ℚ :=
    if criteria_scores.isEmpty then 0
    else ((criteria_scores.map (fun p => p.2)).sum) / (criteria_scores.length : ℚ)
  { total_score := some total_score
    criteria_scores := some criteria_scores
    recommendations := some ["Manual review required"] }

/-- Model of `GrokService._parse_qualification_text` (lines 247-256): the fixed
fallback payload for a qualification request. -/
def parse_qualification_text (text : String) : Qualification :=
  { qualification_score := some 50, recommended_stage := some "new" }

/-- Python `str.lower()`, character by character. -/
def pyLower (s : String) : String :=
  String.mk (s.data.map Char.toLower)

/-- Python `str.strip()`: drop whitespace from both ends. -/
def pyStrip (s : String) : String :=
  String.mk (((s.data.dropWhile Char.isWhitespace).reverse.dropWhile
    Char.isWhitespace).reverse)

/-- Helper for `pyWords`: scan the characters, `acc` holding the reversed
current word. -/
def wordsAux : List Char → List Char → List String
  | [], acc => if acc.isEmpty then [] else [String.mk acc.reverse]
  | c :: cs, acc =>
    if c.isWhitespace then
      if acc.isEmpty then wordsAux cs [] else String.mk acc.reverse :: wordsAux cs []
    else wordsAux cs (c :: acc)

/-- Python `str.split()` with no argument: split on whitespace runs,
discarding empty pieces. -/
def pyWords (s : String) : List String :=
  wordsAux s.data []

/-- Python `s.lower().strip()` as used by the similarity scorer. -/
def pyNormalize (s : String) : String :=
  pyStrip (pyLower s)

/-- Model of `EvaluationService._calculate_similarity_score` (lines 155-182):
exact normalized match yields 1.0; zero expected words yields 0.0; otherwise
word-overlap (weight 0.8) plus length ratio of the original strings
(weight 0.2), clamped to 1.0. -/
def calculate_similarity_score (expected actual : String) : ℚ :=
  let expected_lower := pyNormalize expected
  let actual_lower := pyNormalize actual
  if expected_lower = actual_lower then 1
  else
    let expected_words := (pyWords expected_lower).toFinset
    let actual_words := (pyWords actual_lower).toFinset
    if expected_words.card = 0 then 0
    else
      let common_words := expected_words ∩ actual_words
      let similarity : ℚ := (common_words.card : ℚ) / (expected_words.card : ℚ)
      let length_ratio : ℚ :=
        (min actual.length expected.length : ℚ) / (max actual.length expected.length : ℚ)
      let final_score := similarity * (8 / 10) + length_ratio * (2 / 10)
      min final_score 1

/-- An evaluation test case (`EvaluationCreate` in `app/schemas.py`). -/
structure EvaluationCreate where
  test_name : String
  prompt_template : String
  test_input : String
  expected_output : Option String
deriving DecidableEq, Repr

/-- One `Evaluation` row (`app/models.py`): `score` is a nullable float
column, `passed` an integer column used as a boolean,
`execution_time_ms` a nullable integer column. -/
structure Evaluation where
  test_name : String
  prompt_template : String
  test_input : String
  expected_output : Option String
  actual_output : String
  score : Option ℚ
  passed : Nat
  execution_time_ms : Option Nat
deriving DecidableEq, Repr

/-- The observable outcome of one `grok.generate_completion` call inside the
evaluation loop: either the completion content or the raised exception's
message, together with the measured wall-clock latency in milliseconds. -/
inductive CompletionOutcome where
  | success (content : String) (ms : Nat)
  | failure (errMsg : String) (ms : Nat)
deriving DecidableEq, Repr

/-- One iteration of the loop in `EvaluationService.run_evaluation`
(lines 25-83): on success, compute the similarity score and the 0.7-threshold
verdict only when `test_case.expected_output` is truthy (present and
nonempty), else leave `score = None` and `passed = False`; on a raised
exception, record `actual_output = "ERROR: ..."`, `score = 0.0`,
`passed = 0`. -/
def runCase (test_case : EvaluationCreate) (outcome : CompletionOutcome) :
    Evaluation :=
  match outcome with
  | CompletionOutcome.success content ms =>
    let sp : Option ℚ × Bool :=
      if strTruthy test_case.expected_output then
        let s := calculate_similarity_score (test_case.expected_output.getD "") content
        (some s, s ≥ 7 / 10)
      else (none, false)
    { test_name := test_case.test_name
      prompt_template := test_case.prompt_template
      test_input := test_case.test_input
      expected_output := test_case.expected_output
      actual_output := content
      score := sp.1
      passed := if sp.2 then 1 else 0
      execution_time_ms := some ms }
  | CompletionOutcome.failure e ms =>
    { test_name := test_case.test_name
      prompt_template := test_case.prompt_template
      test_input := test_case.test_input
      expected_output := test_case.expected_output
      actual_output := "ERROR: " ++ e
      score := some 0
      passed := 0
      execution_time_ms := some ms }

/-- Model of `EvaluationService.run_evaluation` (lines 20-91): the batch is processed
strictly sequentially and every case — successful or raised — appends exactly
one record to the results list.  The per-case completion outcomes are
supplied as an oracle alongside the test cases. -/
def run_evaluation (batch : List (EvaluationCreate × CompletionOutcome)) :
    List Evaluation :=
  batch.map (fun p => runCase p.1 p.2)

/-- The `EvaluationSummary` shape (`app/schemas.py`). -/
structure EvaluationSummary where
  total_tests : Nat
  passed_tests : Nat
  failed_tests : Nat
  average_score : Option ℚ
  average_execution_time_ms : Option ℚ
deriving DecidableEq, Repr

/-- Model of `EvaluationService.get_evaluation_summary` (lines 93-129) applied to the
list of records under consideration: empty store yields the 0/0/0 summary
with both averages absent; otherwise `passed_tests` counts records whose
`passed` flag is truthy (nonzero), `failed_tests = total - passed`, and the
averages run over the records whose `score` / `execution_time_ms` is not
`None`. -/
def get_evaluation_summary (evaluations : List Evaluation) : EvaluationSummary :=
  if evaluations.isEmpty then
    { total_tests := 0, passed_tests := 0, failed_tests := 0
      average_score := none, average_execution_time_ms := none }
  else
    let total_tests := evaluations.length
    let passed_tests := (evaluations.filter (fun e => e.passed ≠ 0)).length
    let failed_tests := total_tests - passed_tests
    let scored_tests := evaluations.filterMap (fun e => e.score)
    let average_score : Option ℚ :=
      if scored_tests.isEmpty then none
      else some (scored_tests.sum / (scored_tests.length : ℚ))
    let timed_tests := evaluations.filterMap (fun e => e.execution_time_ms)
    let average_execution_time_ms : Option ℚ :=
      if timed_tests.isEmpty then none
      else some (((timed_tests.map (fun n => (n : ℚ))).sum) / (timed_tests.length : ℚ))
    { total_tests := total_tests
      passed_tests := passed_tests
      failed_tests := failed_tests
      average_score := average_score
      average_execution_time_ms := average_execution_time_ms }

/-- A Python dictionary value as fed to the prompt f-strings: either `None`
or a string.  `str()` renders `None` as the text `"None"`. -/
inductive PyVal where
  | null
  | str (s : String)
deriving DecidableEq, Repr

/-- How an f-string renders the value. -/
def PyVal.render : PyVal → String
  | PyVal.null => "None"
  | PyVal.str s => s

/-- Lookup `lead_data.get(key, default)` followed by f-string rendering: the default
is used only when the key is absent; a key present with value `None`
renders as `"None"`. -/
def pyGet (v : Option PyVal) (default : String) : String :=
  match v with
  | none => default
  | some pv => pv.render

/-- The `lead_data` dictionary handed to the prompt builders
(`LeadService.qualify_lead` lines 118-127): each key may be absent (`none`)
or present with a possibly-`None` value. -/
structure LeadData where
  first_name : Option PyVal
  last_name : Option PyVal
  email : Option PyVal
  company_name : Option PyVal
  job_title : Option PyVal
  industry : Option PyVal
  company_size : Option PyVal
  company_website : Option PyVal
deriving DecidableEq, Repr

/-- Fixed text of the qualification prompt up to the Name slot. -/
def qpHeader : String :=
  "\nYou are an expert Sales Development Representative (SDR) AI assistant. Analyze the following lead information and provide a qualification assessment.\n\nLead Information:\n- Name: "

def qpEmail : String := "\n- Email: "

def qpCompany : String := "\n- Company: "

def qpJobTitle : String := "\n- Job Title: "

def qpIndustry : String := "\n- Industry: "

def qpCompanySize : String := "\n- Company Size: "

def qpWebsite : String := "\n- Website: "

/-- Fixed text of the qualification prompt after the Website slot. -/
def qpFooter : String :=
  "\n\nPlease provide your assessment in the following JSON format:\n\x7b\n    \"qualification_score\": <number between 0-100>,\n    \"qualification_reasons\": [\n        \"reason 1\",\n        \"reason 2\"\n    ],\n    \"recommended_stage\": \"<new|qualified|contacted>\",\n    \"next_actions\": [\n        \"action 1\",\n        \"action 2\"\n    ],\n    \"pain_points\": [\n        \"potential pain point 1\",\n        \"potential pain point 2\"\n    ]\n\x7d\n\nFocus on factors like company size, industry fit, job title relevance, and potential budget/decision-making authority.\n"

/-- Model of `GrokService._build_qualification_prompt` (lines 133-166): the f-string
rendered as concatenation of fixed fragments and slot values. -/
def build_qualification_prompt (lead_data : LeadData) : String :=
  qpHeader ++ pyGet lead_data.first_name "" ++ " " ++ pyGet lead_data.last_name "" ++
  qpEmail ++ pyGet lead_data.email "" ++
  qpCompany ++ pyGet lead_data.company_name "" ++
  qpJobTitle ++ pyGet lead_data.job_title "N/A" ++
  qpIndustry ++ pyGet lead_data.industry "N/A" ++
  qpCompanySize ++ pyGet lead_data.company_size "N/A" ++
  qpWebsite ++ pyGet lead_data.company_website "N/A" ++
  qpFooter

/-- Fixed text of the message prompt up to the Name slot. -/
def mpHeader : String :=
  "\nYou are an expert Sales Development Representative (SDR) writing personalized outreach messages. \n\nLead Information:\n- Name: "

def mpCompany : String := "\n- Company: "

def mpJobTitle : String := "\n- Job Title: "

def mpIndustry : String := "\n- Industry: "

def mpCompanySize : String := "\n- Company Size: "

def mpWebsite : String := "\n- Website: "

def mpMessageType : String := "\n\nMessage Type: "

def mpWrite : String := "\n\nWrite a personalized "

/-- Fixed text of the message prompt after the second message-type slot. -/
def mpChecklist : String :=
  " message that:\n1. Addresses the lead by name\n2. Shows you\x27ve researched their company/role\n3. Identifies a relevant pain point or opportunity\n4. Offers clear value proposition\n5. Has a specific call-to-action\n6. Maintains a professional but friendly tone\n7. Keeps it concise (under 150 words for email, under 300 characters for LinkedIn)\n"

def mpAdditional : String := "\n\nAdditional Instructions: "

def mpGenerateOnly : String :=
  "\n\nGenerate ONLY the message content, no subject line or signatures unless specifically requested."

/-- The base f-string of `GrokService._build_message_prompt` (lines 175-196). -/
def message_base_prompt (lead_data : LeadData) (message_type : String) : String :=
  mpHeader ++ pyGet lead_data.first_name "" ++ " " ++ pyGet lead_data.last_name "" ++
  mpCompany ++ pyGet lead_data.company_name "" ++
  mpJobTitle ++ pyGet lead_data.job_title "N/A" ++
  mpIndustry ++ pyGet lead_data.industry "N/A" ++
  mpCompanySize ++ pyGet lead_data.company_size "N/A" ++
  mpWebsite ++ pyGet lead_data.company_website "N/A" ++
  mpMessageType ++ message_type ++
  mpWrite ++ message_type ++ mpChecklist

/-- Model of `GrokService._build_message_prompt` (lines 168-203): the base f-string,
the conditional custom-instructions suffix (appended only when
`custom_instructions` is truthy), and the closing instruction. -/
def build_message_prompt (lead_data : LeadData) (message_type : String)
    (custom_instructions : Option String) : String :=
  let base_prompt := message_base_prompt lead_data message_type
  let base_prompt :=
    if strTruthy custom_instructions then
      base_prompt ++ mpAdditional ++ custom_instructions.getD ""
    else base_prompt
  base_prompt ++ mpGenerateOnly

/-- Predicate: `needle` occurs as contiguous text inside `hay`. -/
def strContains (needle hay : String) : Prop :=
  needle.data <:+: hay.data

/-- Example lead row used in concrete witnesses and counterexamples. -/
def annLead : Lead :=
  { id := 1, first_name := "Ann", last_name := "Lee", email := "ann@acme.com",
    company_name := "Acme", job_title := some "CTO", industry := some "tech",
    company_size := none, company_website := none,
    lead_score := 7, pipeline_stage := PipelineStage.new }

/-- Example active scoring criterion row. -/
def sizeCriterion : ScoringCriteria :=
  { id := 1, name := "Company Size", description := "bigger is better",
    weight := 2, criteria_rules := "large:10", is_active := 1 }

/-- Example criteria-data entry with a non-trivial weight. -/
def industryCriterion : CriteriaData :=
  { name := "Industry Fit", description := "target industries",
    weight := 3, rules := "tech:10" }

/-- Second example criteria-data entry with a different weight. -/
def sizeCriterionData : CriteriaData :=
  { name := "Company Size", description := "bigger is better",
    weight := 2, rules := "large:8" }

/-- Evaluation case with no expected output. -/
def unscoredCase : EvaluationCreate :=
  { test_name := "smoke", prompt_template := "t", test_input := "ping",
    expected_output := none }

/-- Evaluation case with an expected output. -/
def scoredCase : EvaluationCreate :=
  { test_name := "qual", prompt_template := "t", test_input := "qualify",
    expected_output := some "total_score" }

/-- A two-case batch whose first completion call raises. -/
def demoBatch : List (EvaluationCreate × CompletionOutcome) :=
  [(scoredCase, CompletionOutcome.failure "Grok API error: 500" 120),
   (unscoredCase, CompletionOutcome.success "pong" 35)]

/-- Example prompt-builder input whose four optional fields are all absent. -/
def anonLeadData : LeadData :=
  { first_name := some (PyVal.str "Ann"), last_name := some (PyVal.str "Lee"),
    email := some (PyVal.str "ann@acme.com"), company_name := some (PyVal.str "Acme"),
    job_title := none, industry := none, company_size := none,
    company_website := none }

/-! ## Helper lemmas -/

/-- Keys after a Python-dict insertion: unchanged when the key already
exists, appended otherwise. -/
theorem keys_dictInsert (m : List (String × ℚ)) (k : String) (v : ℚ) :
    (dictInsert m k v).map Prod.fst =
      if m.any (fun p => p.1 = k) then m.map Prod.fst else m.map Prod.fst ++ [k] := by
  unfold dictInsert
  split
  · rw [List.map_map]
    refine List.map_congr_left ?_
    intro p _
    by_cases h : p.1 = k <;> simp [h]
  · simp

/-- Key membership in the folded dict comprehension. -/
theorem mem_keys_dictOfConst_aux (v : ℚ) (names : List String)
    (m : List (String × ℚ)) (k' : String) :
    (k' ∈ ((names.foldl (fun m k => dictInsert m k v) m).map Prod.fst)) ↔
      k' ∈ m.map Prod.fst ∨ k' ∈ names := by
  induction names generalizing m with
  | nil => simp
  | cons n ns ih =>
    rw [List.foldl_cons, ih (dictInsert m n v), keys_dictInsert]
    split
    · rename_i hany
      have hn : n ∈ m.map Prod.fst := by
        obtain ⟨p, hp, hpe⟩ := List.any_eq_true.mp hany
        exact List.mem_map.mpr ⟨p, hp, by simpa using hpe⟩
      constructor
      · rintro (h | h)
        · exact Or.inl h
        · exact Or.inr (List.mem_cons_of_mem n h)
      · rintro (h | h)
        · exact Or.inl h
        · rcases List.mem_cons.mp h with rfl | h
          · exact Or.inl hn
          · exact Or.inr h
    · simp only [List.mem_append, List.mem_singleton, List.mem_cons]
      tauto

/-- Every value of the folded dict comprehension is the inserted constant. -/
theorem values_dictOfConst_aux (v : ℚ) (names : List String)
    (m : List (String × ℚ)) (h : ∀ p ∈ m, p.2 = v) :
    ∀ p ∈ names.foldl (fun m k => dictInsert m k v) m, p.2 = v := by
  induction names generalizing m with
  | nil => exact h
  | cons n ns ih =>
    rw [List.foldl_cons]
    refine ih (dictInsert m n v) ?_
    intro p hp
    unfold dictInsert at hp
    split at hp
    · obtain ⟨q, hq, hqe⟩ := List.mem_map.mp hp
      by_cases hk : q.1 = n
      · simp [hk] at hqe; rw [← hqe]
      · simp [hk] at hqe; rw [← hqe]; exact h q hq
    · rcases List.mem_append.mp hp with hq | hq
      · exact h p hq
      · rw [List.mem_singleton.mp hq]

/-- A Python-dict insertion never produces an empty dict. -/
theorem dictInsert_ne_nil (m : List (String × ℚ)) (k : String) (v : ℚ) :
    dictInsert m k v ≠ [] := by
  unfold dictInsert
  split
  · rename_i hany
    intro hmap
    rw [List.map_eq_nil_iff] at hmap
    subst hmap
    simp at hany
  · simp

/-- The folded dict comprehension is nonempty when fed a nonempty key list
or a nonempty accumulator. -/
theorem foldl_dictInsert_ne_nil (v : ℚ) (names : List String)
    (m : List (String × ℚ)) (h : m ≠ [] ∨ names ≠ []) :
    names.foldl (fun m k => dictInsert m k v) m ≠ [] := by
  induction names generalizing m with
  | nil =>
    rcases h with h | h
    · simpa using h
    · simp at h
  | cons n ns ih =>
    rw [List.foldl_cons]
    exact ih (dictInsert m n v) (Or.inl (dictInsert_ne_nil m n v))

/-- Sum of the values of an association list whose values are all `v`. -/
theorem sum_snd_of_const (l : List (String × ℚ)) (v : ℚ)
    (h : ∀ p ∈ l, p.2 = v) : (l.map Prod.snd).sum = v * l.length := by
  induction l with
  | nil => simp
  | cons p ps ih =>
    rw [List.map_cons, List.sum_cons, h p (List.mem_cons_self p ps),
      ih (fun q hq => h q (List.mem_cons_of_mem p hq))]
    simp [mul_add]
    ring

/-- Containment in a list is preserved when text is prepended. -/
theorem peelLeft {n rest : List Char} (a : List Char) (h : n <:+: rest) :
    n <:+: a ++ rest := by
  obtain ⟨s, t, hst⟩ := h
  exact ⟨a ++ s, t, by rw [← hst]; simp [List.append_assoc]⟩

/-- Containment in a list is preserved when text is appended. -/
theorem liftClosed {n a : List Char} (rest : List Char) (h : n <:+: a) :
    n <:+: a ++ rest := by
  obtain ⟨s, t, hst⟩ := h
  exact ⟨s, t ++ rest, by rw [← hst]; simp [List.append_assoc]⟩

/-- Containment in a three-segment region is preserved when text is appended
after the third segment. -/
theorem liftClosedSplit {n a b c : List Char} (rest : List Char)
    (h : n <:+: a ++ (b ++ c)) : n <:+: a ++ (b ++ (c ++ rest)) := by
  obtain ⟨s, t, hst⟩ := h
  refine ⟨s, t ++ rest, ?_⟩
  have h2 : a ++ (b ++ (c ++ rest)) = (a ++ (b ++ c)) ++ rest := by
    simp [List.append_assoc]
  rw [h2, ← hst]
  simp [List.append_assoc]

/-- The built message prompt always extends the base f-string, whether or
not custom instructions are appended. -/
theorem message_prompt_data (d : LeadData) (mt : String) (ci : Option String) :
    ∃ t : List Char,
      (build_message_prompt d mt ci).data = (message_base_prompt d mt).data ++ t := by
  by_cases h : strTruthy ci
  · exact ⟨mpAdditional.data ++ ((ci.getD "").data ++ mpGenerateOnly.data),
      by simp [build_message_prompt, h, String.data_append, List.append_assoc]⟩
  · exact ⟨mpGenerateOnly.data,
      by simp [build_message_prompt, h, String.data_append]⟩

/-! ## Claim theorems -/

/-- Claim C1 (amended): in `LeadService.qualify_lead`, a recognized
`recommended_stage` overwrites `pipeline_stage`; an unrecognized or missing
stage name leaves it untouched; a present *nonzero* numeric
`qualification_score` overwrites `lead_score` with the score divided by 10;
a missing — or, because of Python truthiness, zero — score leaves
`lead_score` untouched. -/
theorem qualify_lead_updates (lead : Lead) (q : Qualification) :
    (∀ s st, q.recommended_stage = some s → stage_mapping s = some st →
      (applyQualification lead q).pipeline_stage = st) ∧
    (∀ s, q.recommended_stage = some s → stage_mapping s = none →
      (applyQualification lead q).pipeline_stage = lead.pipeline_stage) ∧
    (q.recommended_stage = none →
      (applyQualification lead q).pipeline_stage = lead.pipeline_stage) ∧
    (∀ sc, q.qualification_score = some sc → sc ≠ 0 →
      (applyQualification lead q).lead_score = sc / 10) ∧
    ((q.qualification_score = none ∨ q.qualification_score = some 0) →
      (applyQualification lead q).lead_score = lead.lead_score) := by
  obtain ⟨qs, rs⟩ := q
  refine ⟨?_, ?_, ?_, ?_, ?_⟩
  · rintro s st rfl hmap
    have hs : s ≠ "" := by rintro rfl; simp [stage_mapping] at hmap
    cases qs with
    | none => simp [applyQualification, strTruthy, numTruthy, hs, hmap]
    | some v =>
      by_cases hv : v = 0 <;>
        simp [applyQualification, strTruthy, numTruthy, hs, hmap, hv]
  · rintro s rfl hmap
    by_cases hs : s = ""
    · subst hs
      cases qs with
      | none => simp [applyQualification, strTruthy, numTruthy]
      | some v =>
        by_cases hv : v = 0 <;>
          simp [applyQualification, strTruthy, numTruthy, hv]
    · cases qs with
      | none => simp [applyQualification, strTruthy, numTruthy, hs, hmap]
      | some v =>
        by_cases hv : v = 0 <;>
          simp [applyQualification, strTruthy, numTruthy, hs, hmap, hv]
  · rintro rfl
    cases qs with
    | none => simp [applyQualification, strTruthy, numTruthy]
    | some v =>
      by_cases hv : v = 0 <;>
        simp [applyQualification, strTruthy, numTruthy, hv]
  · rintro sc rfl hsc
    simp only [applyQualification, numTruthy]
    simp [hsc]
  · rintro (rfl | rfl) <;>
      · simp only [applyQualification, numTruthy]
        rcases rs with _ | s
        · simp [strTruthy]
        · by_cases hs : s = ""
          · simp [strTruthy, hs]
          · cases hmap : stage_mapping s <;> simp [strTruthy, hs, hmap]

/-- Claim C1, counterexample to the claim as stated: a structured result
carrying `qualification_score = 0` does *not* overwrite `lead_score` with
`0 / 10`; the lead keeps its prior score `7`. -/
theorem qualify_zero_score_cex :
    ({ qualification_score := some 0, recommended_stage := none
       : Qualification }).qualification_score = some 0 ∧
    (applyQualification annLead
      { qualification_score := some 0, recommended_stage := none }).lead_score = 7 ∧
    ((0 : ℚ) / 10 ≠ 7) := by
  refine ⟨rfl, by decide, by norm_num⟩

/-- Claim C1, witness: the amended theorem applied to a concrete lead and a
concrete result with stage `"qualified"` and score `80`. -/
theorem qualify_lead_updates_witness :
    (applyQualification annLead
      { qualification_score := some 80, recommended_stage := some "qualified" }).pipeline_stage
        = PipelineStage.qualified ∧
    (applyQualification annLead
      { qualification_score := some 80, recommended_stage := some "qualified" }).lead_score
        = 80 / 10 :=
  ⟨(qualify_lead_updates annLead _).1 "qualified" PipelineStage.qualified rfl rfl,
   (qualify_lead_updates annLead _).2.2.2.1 80 rfl (by norm_num)⟩

/-- Claim C2: for a non-JSON completion on a scoring request over a
nonempty criteria list, `_parse_scoring_text` returns `total_score = 5.0`,
a `criteria_scores` dict whose keys are exactly the criterion names and
whose values are all `5.0`, and the output depends only on the criterion
names — the configured weights (and the completion text) are ignored. -/
theorem scoring_fallback_law (text : String) (scoring_criteria : List CriteriaData)
    (hne : scoring_criteria ≠ []) :
    (parse_scoring_text text scoring_criteria).total_score = some 5 ∧
    (∀ k, k ∈ ((parse_scoring_text text scoring_criteria).criteria_scores.getD []).map Prod.fst
        ↔ k ∈ scoring_criteria.map (fun c => c.name)) ∧
    (∀ p ∈ (parse_scoring_text text scoring_criteria).criteria_scores.getD [], p.2 = 5) ∧
    (∀ text2 : String, ∀ criteria2 : List CriteriaData,
      criteria2.map (fun c => c.name) = scoring_criteria.map (fun c => c.name) →
      parse_scoring_text text2 criteria2 = parse_scoring_text text scoring_criteria) := by
  have hnames : scoring_criteria.map (fun c => c.name) ≠ [] := by
    simpa [List.map_eq_nil_iff] using hne
  have hd : dictOfConst (scoring_criteria.map (fun c => c.name)) 5 ≠ [] :=
    foldl_dictInsert_ne_nil 5 _ [] (Or.inr hnames)
  have hvals : ∀ p ∈ dictOfConst (scoring_criteria.map (fun c => c.name)) 5, p.2 = 5 :=
    values_dictOfConst_aux 5 _ [] (by simp)
  refine ⟨?_, ?_, ?_, ?_⟩
  · have hlen : ((dictOfConst (scoring_criteria.map (fun c => c.name)) 5).length : ℚ) ≠ 0 := by
      simpa [List.length_eq_zero] using hd
    simp only [parse_scoring_text]
    rw [if_neg (by simpa [List.isEmpty_iff] using hd)]
    rw [sum_snd_of_const _ 5 hvals]
    rw [mul_div_assoc, div_self hlen]
    simp
  · intro k
    simp only [parse_scoring_text, Option.getD_some]
    exact (mem_keys_dictOfConst_aux 5 _ [] k).trans (by simp)
  · simpa only [parse_scoring_text, Option.getD_some] using hvals
  · intro text2 criteria2 hmap
    simp only [parse_scoring_text, dictOfConst, hmap]

/-- Claim C2, witness: the fallback law applied to a concrete two-criterion
request with distinct weights. -/
theorem scoring_fallback_law_witness :
    (parse_scoring_text "Sorry, I cannot produce JSON."
      [industryCriterion, sizeCriterionData]).total_score = some 5 ∧
    ("Industry Fit" ∈ ((parse_scoring_text "Sorry, I cannot produce JSON."
        [industryCriterion, sizeCriterionData]).criteria_scores.getD []).map Prod.fst
      ↔ "Industry Fit" ∈
        ([industryCriterion, sizeCriterionData].map (fun c => c.name))) :=
  ⟨(scoring_fallback_law "Sorry, I cannot produce JSON."
      [industryCriterion, sizeCriterionData] (by decide)).1,
   (scoring_fallback_law "Sorry, I cannot produce JSON."
      [industryCriterion, sizeCriterionData] (by decide)).2.1 "Industry Fit"⟩

/-- Claim C3 (amended): in `LeadService.score_lead` on an existing lead with
a nonempty active-criteria selection, a present *nonzero* `total_score` is
written to `lead_score` unrescaled; a missing — or, because of Python
truthiness, zero — `total_score` leaves the database untouched; and in
either case the call returns the record
`{lead_id, total_score, criteria_scores, recommendations}` (with defaults
`0`, `{}`, `[]` for absent keys). -/
theorem score_lead_result (leads : List Lead) (allC : List ScoringCriteria)
    (lid : Nat) (ids : Option (List Nat)) (res : ScoringResult)
    (hfound : (findLead leads lid).isSome)
    (hcrit : effectiveCriteria allC ids ≠ []) :
    (∀ ts, res.total_score = some ts → ts ≠ 0 →
      (score_lead leads allC lid ids res).1 =
        storeLead leads lid (fun l => { l with lead_score := ts })) ∧
    ((res.total_score = none ∨ res.total_score = some 0) →
      (score_lead leads allC lid ids res).1 = leads) ∧
    (score_lead leads allC lid ids res).2 = Except.ok
      { lead_id := lid
        total_score := res.total_score.getD 0
        criteria_scores := res.criteria_scores.getD []
        recommendations := res.recommendations.getD [] } := by
  obtain ⟨lead, hlead⟩ := Option.isSome_iff_exists.mp hfound
  have hempty : (effectiveCriteria allC ids).isEmpty = false := by
    simpa [List.isEmpty_iff] using hcrit
  refine ⟨?_, ?_, ?_⟩
  · rintro ts hts hne
    simp [score_lead, hlead, hempty, hts, numTruthy, hne]
  · rintro (hts | hts) <;> simp [score_lead, hlead, hempty, hts, numTruthy]
  · cases hts : res.total_score with
    | none => simp [score_lead, hlead, hempty, hts, numTruthy]
    | some v =>
      by_cases hv : v = 0 <;> simp [score_lead, hlead, hempty, hts, numTruthy, hv]

/-- Claim C3, counterexample to the claim as stated: a structured result
with `total_score = 0` is *not* persisted; the stored lead keeps score `7`. -/
theorem score_zero_not_persisted_cex :
    ({ total_score := some 0, criteria_scores := some [("Company Size", 0)],
       recommendations := some [] : ScoringResult }).total_score = some 0 ∧
    (score_lead [annLead] [sizeCriterion] 1 none
      { total_score := some 0, criteria_scores := some [("Company Size", 0)],
        recommendations := some [] }).1 = [annLead] ∧
    annLead.lead_score = 7 ∧ (7 : ℚ) ≠ 0 := by
  refine ⟨rfl, by decide, by decide, by norm_num⟩

/-- Claim C3, witness: the amended theorem applied to a concrete database,
criterion and result with `total_score = 4`. -/
theorem score_lead_result_witness :
    (score_lead [annLead] [sizeCriterion] 1 none
      { total_score := some 4, criteria_scores := some [("Company Size", 4)],
        recommendations := some ["call them"] }).1 =
      storeLead [annLead] 1 (fun l => { l with lead_score := 4 }) ∧
    (score_lead [annLead] [sizeCriterion] 1 none
      { total_score := some 4, criteria_scores := some [("Company Size", 4)],
        recommendations := some ["call them"] }).2 = Except.ok
      { lead_id := 1, total_score := Option.getD (some 4) 0,
        criteria_scores := Option.getD (some [("Company Size", 4)]) [],
        recommendations := Option.getD (some ["call them"]) [] } :=
  ⟨(score_lead_result [annLead] [sizeCriterion] 1 none _
      (by decide) (by decide)).1 4 rfl (by norm_num),
   (score_lead_result [annLead] [sizeCriterion] 1 none _
      (by decide) (by decide)).2.2⟩

/-- Claim C4: `LeadService.score_lead` on an existing lead with an empty
effective criteria selection raises `"No active scoring criteria found"`
and leaves the database (every field of every lead) exactly as before. -/
theorem score_no_criteria_error (leads : List Lead) (allC : List ScoringCriteria)
    (lid : Nat) (ids : Option (List Nat)) (res : ScoringResult) (lead : Lead)
    (hfound : findLead leads lid = some lead)
    (hcrit : effectiveCriteria allC ids = []) :
    score_lead leads allC lid ids res =
      (leads, Except.error "No active scoring criteria found") := by
  simp [score_lead, hfound, hcrit]

/-- Claim C4, witness: the theorem applied to a database whose only
criterion row is deactivated. -/
theorem score_no_criteria_error_witness :
    score_lead [annLead] [{ sizeCriterion with is_active := 0 }] 1 none
      { total_score := some 9, criteria_scores := none, recommendations := none } =
      ([annLead], Except.error "No active scoring criteria found") :=
  score_no_criteria_error [annLead] [{ sizeCriterion with is_active := 0 }] 1 none
    _ annLead (by decide) (by decide)

/-- Claim C5: applying a structured qualification result with
`recommended_stage = "qualified"` and `qualification_score = 80` to any
lead yields `pipeline_stage = qualified` and `lead_score = 8.0`; with score
`90` it yields `lead_score = 9.0`. -/
theorem qualify_roundtrip (lead : Lead) :
    (applyQualification lead
      { qualification_score := some 80, recommended_stage := some "qualified" }).pipeline_stage
        = PipelineStage.qualified ∧
    (applyQualification lead
      { qualification_score := some 80, recommended_stage := some "qualified" }).lead_score = 8 ∧
    (applyQualification lead
      { qualification_score := some 90, recommended_stage := some "qualified" }).pipeline_stage
        = PipelineStage.qualified ∧
    (applyQualification lead
      { qualification_score := some 90, recommended_stage := some "qualified" }).lead_score = 9 := by
  refine ⟨?_, ?_, ?_, ?_⟩ <;>
    simp [applyQualification, strTruthy, numTruthy, stage_mapping] <;> norm_num

/-- Claim C6: in `EvaluationService.run_evaluation`, every batch entry —
raised or not — yields exactly one record at its position, and a raised
completion call yields a record with `passed = 0`, `score = 0.0` and an
`"ERROR: "`-marked `actual_output`; subsequent cases are still processed. -/
theorem evaluation_failure_recorded (batch : List (EvaluationCreate × CompletionOutcome)) :
    (run_evaluation batch).length = batch.length ∧
    (∀ i : Nat, ∀ tc : EvaluationCreate, ∀ oc : CompletionOutcome,
      batch[i]? = some (tc, oc) →
      (run_evaluation batch)[i]? = some (runCase tc oc)) ∧
    (∀ i : Nat, ∀ tc : EvaluationCreate, ∀ e : String, ∀ ms : Nat,
      batch[i]? = some (tc, CompletionOutcome.failure e ms) →
      ∃ r : Evaluation, (run_evaluation batch)[i]? = some r ∧
        r.passed = 0 ∧ r.score = some 0 ∧ r.actual_output = "ERROR: " ++ e) := by
  refine ⟨by simp [run_evaluation], ?_, ?_⟩
  · intro i tc oc h
    rw [run_evaluation, List.getElem?_map, h]
    rfl
  · intro i tc e ms h
    refine ⟨runCase tc (CompletionOutcome.failure e ms), ?_, rfl, rfl, rfl⟩
    rw [run_evaluation, List.getElem?_map, h]
    rfl

/-- Claim C6, witness: a concrete two-case batch whose first completion
raises; both cases are recorded. -/
theorem evaluation_failure_recorded_witness :
    (run_evaluation demoBatch).length = demoBatch.length ∧
    (∃ r : Evaluation, (run_evaluation demoBatch)[0]? = some r ∧
      r.passed = 0 ∧ r.score = some 0 ∧
      r.actual_output = "ERROR: " ++ "Grok API error: 500") ∧
    (run_evaluation demoBatch)[1]? =
      some (runCase unscoredCase (CompletionOutcome.success "pong" 35)) :=
  ⟨(evaluation_failure_recorded demoBatch).1,
   (evaluation_failure_recorded demoBatch).2.2 0 scoredCase "Grok API error: 500" 120 rfl,
   (evaluation_failure_recorded demoBatch).2.1 1 unscoredCase
     (CompletionOutcome.success "pong" 35) rfl⟩

/-- Claim C7, counterexample to the claim as stated: a successful case with
no `expected_output` leaves `score` unset but records the pass verdict as
`0` — a fail — which the summary counts among `failed_tests`. -/
theorem no_expected_unset_cex :
    unscoredCase.expected_output = none ∧
    (runCase unscoredCase (CompletionOutcome.success "hello" 10)).score = none ∧
    (runCase unscoredCase (CompletionOutcome.success "hello" 10)).passed = 0 ∧
    (get_evaluation_summary
      [runCase unscoredCase (CompletionOutcome.success "hello" 10)]).failed_tests = 1 := by
  refine ⟨rfl, rfl, rfl, by decide⟩

/-- Claim C7 (amended): a successful case with a missing (or empty)
`expected_output` records `score = None` (unset), but its pass verdict is
not left unset: the record's `passed` column is written as `0`, i.e. a
fail — it is never recorded as a pass. -/
theorem no_expected_recorded_as_fail (tc : EvaluationCreate) (content : String) (ms : Nat)
    (h : tc.expected_output = none ∨ tc.expected_output = some "") :
    (runCase tc (CompletionOutcome.success content ms)).score = none ∧
    (runCase tc (CompletionOutcome.success content ms)).passed = 0 := by
  rcases h with h | h <;> simp [runCase, strTruthy, h]

/-- Claim C7, witness: the amended theorem applied to a concrete case
without expected output. -/
theorem no_expected_recorded_as_fail_witness :
    (runCase unscoredCase (CompletionOutcome.success "pong" 35)).score = none ∧
    (runCase unscoredCase (CompletionOutcome.success "pong" 35)).passed = 0 :=
  no_expected_recorded_as_fail unscoredCase "pong" 35 (Or.inl rfl)

/-- Claim C8 (amended): `_calculate_similarity_score` always lies in
`[0, 1]`; it equals `0.0` when `expected` has zero words after
normalization *and* the normalized inputs differ — when both normalize to
the same (empty) text the exact-match branch fires first and returns
`1.0`. -/
theorem similarity_range_and_empty (expected actual : String) :
    (0 ≤ calculate_similarity_score expected actual ∧
      calculate_similarity_score expected actual ≤ 1) ∧
    (pyWords (pyNormalize expected) = [] →
      pyNormalize expected ≠ pyNormalize actual →
      calculate_similarity_score expected actual = 0) ∧
    (pyNormalize expected = pyNormalize actual →
      calculate_similarity_score expected actual = 1) := by
  refine ⟨?_, ?_, ?_⟩
  · by_cases h1 : pyNormalize expected = pyNormalize actual
    · simp [calculate_similarity_score, h1]
    · by_cases h2 : (pyWords (pyNormalize expected)).toFinset.card = 0
      · simp [calculate_similarity_score, h1, h2]
      · have hmaxpos : (0 : ℚ) ≤ max (actual.length : ℚ) (expected.length : ℚ) :=
          le_trans (Nat.cast_nonneg _) (le_max_left _ _)
        have hminpos : (0 : ℚ) ≤ min (actual.length : ℚ) (expected.length : ℚ) :=
          le_min (Nat.cast_nonneg _) (Nat.cast_nonneg _)
        have hratio : (0 : ℚ) ≤
            min (actual.length : ℚ) (expected.length : ℚ) /
              max (actual.length : ℚ) (expected.length : ℚ) :=
          div_nonneg hminpos hmaxpos
        have hsim : (0 : ℚ) ≤
            (((pyWords (pyNormalize expected)).toFinset ∩
              (pyWords (pyNormalize actual)).toFinset).card : ℚ) /
              ((pyWords (pyNormalize expected)).toFinset.card : ℚ) :=
          div_nonneg (Nat.cast_nonneg _) (Nat.cast_nonneg _)
        simp only [calculate_similarity_score, h1, h2, if_neg, if_false]
        constructor
        · refine le_min ?_ zero_le_one
          have := mul_nonneg hratio (by norm_num : (0:ℚ) ≤ 2 / 10)
          have := mul_nonneg hsim (by norm_num : (0:ℚ) ≤ 8 / 10)
          linarith
        · exact min_le_right _ _
  · intro hw hne
    unfold calculate_similarity_score
    rw [if_neg hne, if_pos (by simp [hw])]
  · intro he
    unfold calculate_similarity_score
    rw [if_pos he]

/-- Claim C8, witness: concrete instances of the range bound, the
empty-expected zero, and the normalized exact match. -/
theorem similarity_range_and_empty_witness :
    (0 ≤ calculate_similarity_score "" "x" ∧
      calculate_similarity_score "" "x" ≤ 1) ∧
    calculate_similarity_score "" "x" = 0 ∧
    calculate_similarity_score "Hello" "hello  " = 1 :=
  ⟨(similarity_range_and_empty "" "x").1,
   (similarity_range_and_empty "" "x").2.1 (by decide) (by decide),
   (similarity_range_and_empty "Hello" "hello  ").2.2 (by decide)⟩

/-- Claim C8, counterexample to the claim as stated: with both inputs
empty, `expected` has zero words yet the function returns `1.0`, not
`0.0`. -/
theorem similarity_empty_cex :
    pyWords (pyNormalize "") = [] ∧
    calculate_similarity_score "" "" = 1 ∧
    (1 : ℚ) ≠ 0 := by
  refine ⟨rfl, by decide, by norm_num⟩

/-- Claim C10: the evaluation summary satisfies
`passed_tests + failed_tests = total_tests`, `total_tests` is the number of
records considered, `passed_tests` counts the records whose pass flag is
set, and an empty store yields the `0/0/0` summary with both averages
absent. -/
theorem evaluation_summary_counts (evaluations : List Evaluation) :
    (get_evaluation_summary evaluations).passed_tests +
      (get_evaluation_summary evaluations).failed_tests =
      (get_evaluation_summary evaluations).total_tests ∧
    (get_evaluation_summary evaluations).total_tests = evaluations.length ∧
    (get_evaluation_summary evaluations).passed_tests =
      (evaluations.filter (fun e => e.passed ≠ 0)).length ∧
    (evaluations = [] → get_evaluation_summary evaluations =
      { total_tests := 0, passed_tests := 0, failed_tests := 0,
        average_score := none, average_execution_time_ms := none }) := by
  by_cases h : evaluations = []
  · subst h
    refine ⟨rfl, rfl, rfl, fun _ => rfl⟩
  · have hne : evaluations.isEmpty = false := by simpa [List.isEmpty_iff] using h
    have hle : (evaluations.filter (fun e => e.passed ≠ 0)).length ≤ evaluations.length :=
      List.length_filter_le _ _
    refine ⟨?_, ?_, ?_, fun hc => absurd hc h⟩
    · simp only [get_evaluation_summary, hne]
      simpa using Nat.add_sub_cancel' hle
    · simp [get_evaluation_summary, hne]
    · simp [get_evaluation_summary, hne]

/-- Claim C10, witness: the counting law applied to the empty store and to
a concrete two-record run. -/
theorem evaluation_summary_counts_witness :
    get_evaluation_summary [] =
      { total_tests := 0, passed_tests := 0, failed_tests := 0,
        average_score := none, average_execution_time_ms := none } ∧
    (get_evaluation_summary (run_evaluation demoBatch)).passed_tests +
      (get_evaluation_summary (run_evaluation demoBatch)).failed_tests =
      (get_evaluation_summary (run_evaluation demoBatch)).total_tests :=
  ⟨(evaluation_summary_counts []).2.2.2 rfl,
   (evaluation_summary_counts (run_evaluation demoBatch)).1⟩

/-- Claim C9: for every lead attribute set, both prompt builders render
every declared field slot (each field label occurs in the prompt), and an
absent optional field (`job_title`, `industry`, `company_size`,
`company_website`) is rendered as the literal `"N/A"` in its slot — the
slot text is exactly the label followed by `N/A`. -/
theorem prompt_builder_slots (d : LeadData) (message_type : String)
    (custom_instructions : Option String) :
    (strContains "- Name: " (build_qualification_prompt d) ∧
     strContains "- Email: " (build_qualification_prompt d) ∧
     strContains "- Company: " (build_qualification_prompt d) ∧
     strContains "- Job Title: " (build_qualification_prompt d) ∧
     strContains "- Industry: " (build_qualification_prompt d) ∧
     strContains "- Company Size: " (build_qualification_prompt d) ∧
     strContains "- Website: " (build_qualification_prompt d)) ∧
    (d.job_title = none →
      strContains "- Job Title: N/A\n" (build_qualification_prompt d)) ∧
    (d.industry = none →
      strContains "- Industry: N/A\n" (build_qualification_prompt d)) ∧
    (d.company_size = none →
      strContains "- Company Size: N/A\n" (build_qualification_prompt d)) ∧
    (d.company_website = none →
      strContains "- Website: N/A\n" (build_qualification_prompt d)) ∧
    (strContains "- Name: " (build_message_prompt d message_type custom_instructions) ∧
     strContains "- Company: " (build_message_prompt d message_type custom_instructions) ∧
     strContains "- Job Title: " (build_message_prompt d message_type custom_instructions) ∧
     strContains "- Industry: " (build_message_prompt d message_type custom_instructions) ∧
     strContains "- Company Size: " (build_message_prompt d message_type custom_instructions) ∧
     strContains "- Website: " (build_message_prompt d message_type custom_instructions) ∧
     strContains "Message Type: " (build_message_prompt d message_type custom_instructions)) ∧
    (d.job_title = none →
      strContains "- Job Title: N/A\n" (build_message_prompt d message_type custom_instructions)) ∧
    (d.industry = none →
      strContains "- Industry: N/A\n" (build_message_prompt d message_type custom_instructions)) ∧
    (d.company_size = none →
      strContains "- Company Size: N/A\n" (build_message_prompt d message_type custom_instructions)) ∧
    (d.company_website = none →
      strContains "- Website: N/A\n" (build_message_prompt d message_type custom_instructions)) := by
  obtain ⟨t, ht⟩ := message_prompt_data d message_type custom_instructions
  refine ⟨⟨?_, ?_, ?_, ?_, ?_, ?_, ?_⟩, ?_, ?_, ?_, ?_, ⟨?_, ?_, ?_, ?_, ?_, ?_, ?_⟩,
    ?_, ?_, ?_, ?_⟩
  · unfold strContains
    simp only [build_qualification_prompt, String.data_append, List.append_assoc]
    exact liftClosed _ (by decide)
  · unfold strContains
    simp only [build_qualification_prompt, String.data_append, List.append_assoc]
    exact peelLeft _ (peelLeft _ (peelLeft _ (peelLeft _
      (liftClosed _ (by decide)))))
  · unfold strContains
    simp only [build_qualification_prompt, String.data_append, List.append_assoc]
    exact peelLeft _ (peelLeft _ (peelLeft _ (peelLeft _ (peelLeft _ (peelLeft _
      (liftClosed _ (by decide)))))))
  · unfold strContains
    simp only [build_qualification_prompt, String.data_append, List.append_assoc]
    exact peelLeft _ (peelLeft _ (peelLeft _ (peelLeft _ (peelLeft _ (peelLeft _
      (peelLeft _ (peelLeft _ (liftClosed _ (by decide)))))))))
  · unfold strContains
    simp only [build_qualification_prompt, String.data_append, List.append_assoc]
    exact peelLeft _ (peelLeft _ (peelLeft _ (peelLeft _ (peelLeft _ (peelLeft _
      (peelLeft _ (peelLeft _ (peelLeft _ (peelLeft _
      (liftClosed _ (by decide)))))))))))
  · unfold strContains
    simp only [build_qualification_prompt, String.data_append, List.append_assoc]
    exact peelLeft _ (peelLeft _ (peelLeft _ (peelLeft _ (peelLeft _ (peelLeft _
      (peelLeft _ (peelLeft _ (peelLeft _ (peelLeft _ (peelLeft _ (peelLeft _
      (liftClosed _ (by decide)))))))))))))
  · unfold strContains
    simp only [build_qualification_prompt, String.data_append, List.append_assoc]
    exact peelLeft _ (peelLeft _ (peelLeft _ (peelLeft _ (peelLeft _ (peelLeft _
      (peelLeft _ (peelLeft _ (peelLeft _ (peelLeft _ (peelLeft _ (peelLeft _
      (peelLeft _ (peelLeft _ (liftClosed _ (by decide)))))))))))))))
  · intro h
    unfold strContains
    simp only [build_qualification_prompt, h, pyGet, String.data_append, List.append_assoc]
    exact peelLeft _ (peelLeft _ (peelLeft _ (peelLeft _ (peelLeft _ (peelLeft _
      (peelLeft _ (peelLeft _ (liftClosedSplit _ (by decide)))))))))
  · intro h
    unfold strContains
    simp only [build_qualification_prompt, h, pyGet, String.data_append, List.append_assoc]
    exact peelLeft _ (peelLeft _ (peelLeft _ (peelLeft _ (peelLeft _ (peelLeft _
      (peelLeft _ (peelLeft _ (peelLeft _ (peelLeft _
      (liftClosedSplit _ (by decide)))))))))))
  · intro h
    unfold strContains
    simp only [build_qualification_prompt, h, pyGet, String.data_append, List.append_assoc]
    exact peelLeft _ (peelLeft _ (peelLeft _ (peelLeft _ (peelLeft _ (peelLeft _
      (peelLeft _ (peelLeft _ (peelLeft _ (peelLeft _ (peelLeft _ (peelLeft _
      (liftClosedSplit _ (by decide)))))))))))))
  · intro h
    unfold strContains
    simp only [build_qualification_prompt, h, pyGet, String.data_append, List.append_assoc]
    exact peelLeft _ (peelLeft _ (peelLeft _ (peelLeft _ (peelLeft _ (peelLeft _
      (peelLeft _ (peelLeft _ (peelLeft _ (peelLeft _ (peelLeft _ (peelLeft _
      (peelLeft _ (peelLeft _ (by decide))))))))))))))
  · unfold strContains
    rw [ht]
    simp only [message_base_prompt, String.data_append, List.append_assoc]
    exact liftClosed _ (by decide)
  · unfold strContains
    rw [ht]
    simp only [message_base_prompt, String.data_append, List.append_assoc]
    exact peelLeft _ (peelLeft _ (peelLeft _ (peelLeft _
      (liftClosed _ (by decide)))))
  · unfold strContains
    rw [ht]
    simp only [message_base_prompt, String.data_append, List.append_assoc]
    exact peelLeft _ (peelLeft _ (peelLeft _ (peelLeft _ (peelLeft _ (peelLeft _
      (liftClosed _ (by decide)))))))
  · unfold strContains
    rw [ht]
    simp only [message_base_prompt, String.data_append, List.append_assoc]
    exact peelLeft _ (peelLeft _ (peelLeft _ (peelLeft _ (peelLeft _ (peelLeft _
      (peelLeft _ (peelLeft _ (liftClosed _ (by decide)))))))))
  · unfold strContains
    rw [ht]
    simp only [message_base_prompt, String.data_append, List.append_assoc]
    exact peelLeft _ (peelLeft _ (peelLeft _ (peelLeft _ (peelLeft _ (peelLeft _
      (peelLeft _ (peelLeft _ (peelLeft _ (peelLeft _
      (liftClosed _ (by decide)))))))))))
  · unfold strContains
    rw [ht]
    simp only [message_base_prompt, String.data_append, List.append_assoc]
    exact peelLeft _ (peelLeft _ (peelLeft _ (peelLeft _ (peelLeft _ (peelLeft _
      (peelLeft _ (peelLeft _ (peelLeft _ (peelLeft _ (peelLeft _ (peelLeft _
      (liftClosed _ (by decide)))))))))))))
  · unfold strContains
    rw [ht]
    simp only [message_base_prompt, String.data_append, List.append_assoc]
    exact peelLeft _ (peelLeft _ (peelLeft _ (peelLeft _ (peelLeft _ (peelLeft _
      (peelLeft _ (peelLeft _ (peelLeft _ (peelLeft _ (peelLeft _ (peelLeft _
      (peelLeft _ (peelLeft _ (liftClosed _ (by decide)))))))))))))))
  · intro h
    unfold strContains
    rw [ht]
    simp only [message_base_prompt, h, pyGet, String.data_append, List.append_assoc]
    exact peelLeft _ (peelLeft _ (peelLeft _ (peelLeft _ (peelLeft _ (peelLeft _
      (liftClosedSplit _ (by decide)))))))
  · intro h
    unfold strContains
    rw [ht]
    simp only [message_base_prompt, h, pyGet, String.data_append, List.append_assoc]
    exact peelLeft _ (peelLeft _ (peelLeft _ (peelLeft _ (peelLeft _ (peelLeft _
      (peelLeft _ (peelLeft _ (liftClosedSplit _ (by decide)))))))))
  · intro h
    unfold strContains
    rw [ht]
    simp only [message_base_prompt, h, pyGet, String.data_append, List.append_assoc]
    exact peelLeft _ (peelLeft _ (peelLeft _ (peelLeft _ (peelLeft _ (peelLeft _
      (peelLeft _ (peelLeft _ (peelLeft _ (peelLeft _
      (liftClosedSplit _ (by decide)))))))))))
  · intro h
    unfold strContains
    rw [ht]
    simp only [message_base_prompt, h, pyGet, String.data_append, List.append_assoc]
    exact peelLeft _ (peelLeft _ (peelLeft _ (peelLeft _ (peelLeft _ (peelLeft _
      (peelLeft _ (peelLeft _ (peelLeft _ (peelLeft _ (peelLeft _ (peelLeft _
      (liftClosedSplit _ (by decide)))))))))))))

/-- Claim C9, witness: both builders applied to a concrete lead whose four
optional fields are absent render the `N/A` placeholder in the slots. -/
theorem prompt_builder_slots_witness :
    strContains "- Job Title: N/A\n" (build_qualification_prompt anonLeadData) ∧
    strContains "- Website: N/A\n" (build_message_prompt anonLeadData "email" none) :=
  ⟨(prompt_builder_slots anonLeadData "email" none).2.1 rfl,
   (prompt_builder_slots anonLeadData "email" none).2.2.2.2.2.2.2.2.2 rfl⟩

end SDR
